import Mathlib

/-!
Verification development for the yt-downloader HTTP API server.

The source under scrutiny is `src/server.ts` (admission handler, in-memory
job store, core job processor, webhook callback), `src/downloader.ts`
(format selection, streaming and local transfer) and `src/types.ts`
(data model).  External effects — the yt-dlp subprocess, the Google Drive
API, URL parsing, UUID generation and clock reads — are passed in as
oracle values, so each Lean function below is the pure control flow of
the corresponding source function.
-/

namespace YtD

/-- Job status, from `types.ts` `JobStatus`. -/
inductive JobStatus where
  | queued
  | in_progress
  | success
  | failed
deriving DecidableEq

/-- Job record, from `types.ts` `JobResult`.  Optional fields are absent
(`none`) until the processor assigns them. -/
structure JobResult where
  jobId : String
  status : JobStatus
  title : Option String := none
  localPath : Option String := none
  driveUrl : Option String := none
  driveFileId : Option String := none
  error : Option String := none
  createdAt : String
  completedAt : Option String := none
deriving DecidableEq

/-- Video metadata, from `downloader.ts` `VideoInfo`. -/
structure VideoInfo where
  title : String
  ext : String
  id : String
deriving DecidableEq

/-- JavaScript truthiness of an optional string value (absent, or the
empty string, is falsy; any other string is truthy). -/
def truthy : Option String → Bool
  | some s => !(s == "")
  | none => false

/-- `s.success` or `s.failed`. -/
def isTerminal : JobStatus → Bool
  | .success => true
  | .failed => true
  | _ => false

/-- Position of a status along the lifecycle
`queued → in_progress → terminal`. -/
def statusRank : JobStatus → Nat
  | .queued => 0
  | .in_progress => 1
  | .success => 2
  | .failed => 2

-- ── Job store (the `jobs` Map in server.ts) ─────────────────────────────

abbrev Store := List (String × JobResult)

/-- `jobs.get(k)`: first (and only) binding of `k`. -/
def mapGet : Store → String → Option JobResult
  | [], _ => none
  | p :: rest, k => if p.1 == k then some p.2 else mapGet rest k

/-- `jobs.set(k, v)`: JavaScript `Map.set` semantics — replace the binding
of `k` in place if it exists, otherwise append a fresh binding. -/
def mapSet : Store → String → JobResult → Store
  | [], k, v => [(k, v)]
  | p :: rest, k, v => if p.1 == k then (k, v) :: rest else p :: mapSet rest k v

-- ── Format selection (downloader.ts buildYtdlpFormat) ───────────────────

/-- `downloader.ts` `buildYtdlpFormat`: maps a quality string to a yt-dlp
format selector.  The `Record` lookups with the `??` default are rendered
as an if-chain with a final default branch. -/
def buildYtdlpFormat (quality : String) (streaming : Bool) : String :=
  if streaming then
    if quality == "highest" then "best[height<=720][ext=mp4]/best[height<=720]"
    else if quality == "best" then "best[height<=720][ext=mp4]/best[height<=720]"
    else if quality == "1080p" then "best[height<=720][ext=mp4]/best[height<=720]"
    else if quality == "720p" then "best[height<=720][ext=mp4]/best[height<=720]"
    else if quality == "mid" then "best[height<=720][ext=mp4]/best[height<=720]"
    else if quality == "480p" then "best[height<=480][ext=mp4]/best[height<=480]"
    else if quality == "360p" then "best[height<=360][ext=mp4]/best[height<=360]"
    else if quality == "lowest" then "worst[ext=mp4]/worst"
    else "best[height<=720][ext=mp4]/best[height<=720]"
  else
    if quality == "highest" then "bestvideo[ext=mp4]+bestaudio[ext=m4a]/best[ext=mp4]/best"
    else if quality == "best" then "bestvideo[ext=mp4]+bestaudio[ext=m4a]/best[ext=mp4]/best"
    else if quality == "1080p" then "bestvideo[height<=1080][ext=mp4]+bestaudio[ext=m4a]/best[height<=1080][ext=mp4]/best[height<=1080]"
    else if quality == "720p" then "bestvideo[height<=720][ext=mp4]+bestaudio[ext=m4a]/best[height<=720][ext=mp4]/best[height<=720]"
    else if quality == "mid" then "bestvideo[height<=720][ext=mp4]+bestaudio[ext=m4a]/best[height<=720][ext=mp4]/best[height<=720]"
    else if quality == "480p" then "bestvideo[height<=480][ext=mp4]+bestaudio[ext=m4a]/best[height<=480][ext=mp4]/best[height<=480]"
    else if quality == "360p" then "bestvideo[height<=360][ext=mp4]+bestaudio[ext=m4a]/best[height<=360][ext=mp4]/best[height<=360]"
    else if quality == "lowest" then "worstvideo[ext=mp4]+worstaudio[ext=m4a]/worst[ext=mp4]/worst"
    else "bestvideo[ext=mp4]+bestaudio[ext=m4a]/best[ext=mp4]/best"

/-- The format selector used on the streaming path: `streamToGDrive`
(downloader.ts line 109) calls `buildYtdlpFormat(quality, true)`. -/
def streamToGDriveFormat (quality : String) : String :=
  buildYtdlpFormat quality true

/-- Split a yt-dlp selector into its `/`-separated fallback alternatives
(auxiliary, over the character list). -/
def altsAux : List Char → List (List Char)
  | [] => [[]]
  | c :: cs =>
      let r := altsAux cs
      if c = '/' then [] :: r
      else
        match r with
        | [] => [[c]]
        | a :: rest => (c :: a) :: rest

/-- The `/`-separated fallback alternatives of a selector string. -/
def alts (s : String) : List String :=
  (altsAux s.toList).map (fun l => String.mk l)

/-- The last (lowest-priority) fallback alternative of a selector. -/
def lastAlt (s : String) : String :=
  (alts s).getLastD s

/-- Whether a selector contains a `+`, i.e. requests separate video and
audio streams that must be merged (remuxed) after download. -/
def hasMerge (s : String) : Bool :=
  s.toList.any (fun c => c == '+')

-- ── Webhook callback (server.ts sendWebhookCallback) ────────────────────

/-- Outcome of the single `fetch` call made by the webhook callback. -/
inductive WebhookOutcome where
  | ok2xx
  | non2xx (code : Nat) (text : String)
  | netError (msg : String)
deriving DecidableEq

/-- What a run of `sendWebhookCallback` produced: how many network calls
it made, the job record as it left it, any error it let escape to its
caller, and the diagnostic it logged. -/
structure WebhookResult where
  attempts : Nat
  jobAfter : JobResult
  thrown : Option String
  diagnostic : Option String
deriving DecidableEq

/-- `server.ts` `sendWebhookCallback`: one `fetch` call inside a
try/catch; a non-2xx response is logged via `console.warn`, a network
error is caught and logged via `console.error`; the job record is never
touched and nothing is rethrown. -/
def sendWebhookCallback (webhookUrl : String) (job : JobResult)
    (outcome : WebhookOutcome) : WebhookResult :=
  match outcome with
  | .ok2xx => ⟨1, job, none, none⟩
  | .non2xx c t =>
      ⟨1, job, none, some ("Callback failed with status " ++ toString c ++ ": " ++ t)⟩
  | .netError m =>
      ⟨1, job, none, some ("Failed to send callback to " ++ webhookUrl ++ ": " ++ m)⟩

-- ── Core job processor (server.ts processJob) ───────────────────────────

/-- A run of `processJob`, recorded for analysis: `trace` is the ordered
list of observable snapshots of the job record (states at `await`
suspension points and after completion; consecutive synchronous mutations
of server.ts collapse into one snapshot since no other code can run
between them), `terminalRec` is the record at the terminal transition,
and `final` the record after the notification step. -/
structure ProcessLog where
  trace : List JobResult
  terminalRec : JobResult
  transferInvoked : Bool
  webhookInvoked : Bool
  final : JobResult
deriving DecidableEq

/-- `server.ts` `processJob`.  Oracles: `fetch` is the result of
`getVideoInfo`, `gdr` of `streamToGDrive` (URL and file id), `lr` of
`downloadLocally` (local path), `doneTs` the clock read at completion,
`wout` the webhook delivery outcome.  `hasGDrive` is whether the request
carried a `googleDrive` payload, `webhookUrl` its `webhookUrl` field. -/
def processJob (job0 : JobResult) (hasGDrive : Bool)
    (fetch : Except String VideoInfo)
    (gdr : Except String (String × String))
    (lr : Except String String)
    (doneTs : String)
    (webhookUrl : Option String) (wout : WebhookOutcome) : ProcessLog :=
  let j1 : JobResult := { job0 with status := .in_progress }
  let finish : List JobResult → JobResult → Bool → ProcessLog :=
    fun pre term transfer =>
      if truthy webhookUrl then
        let w := sendWebhookCallback (webhookUrl.getD "") term wout
        ⟨pre ++ [term, w.jobAfter], term, transfer, true, w.jobAfter⟩
      else
        ⟨pre ++ [term], term, transfer, false, term⟩
  match fetch with
  | .error m =>
      finish [j1]
        { j1 with status := .failed, error := some m, completedAt := some doneTs } false
  | .ok info =>
      let j2 := { j1 with title := some info.title }
      if hasGDrive then
        match gdr with
        | .error m =>
            finish [j1, j2]
              { j2 with status := .failed, error := some m, completedAt := some doneTs } true
        | .ok p =>
            finish [j1, j2]
              { j2 with driveUrl := some p.1, driveFileId := some p.2,
                        status := .success, completedAt := some doneTs } true
      else
        match lr with
        | .error m =>
            finish [j1, j2]
              { j2 with status := .failed, error := some m, completedAt := some doneTs } true
        | .ok p =>
            finish [j1, j2]
              { j2 with localPath := some p, status := .success, completedAt := some doneTs } true

-- ── Admission handler (server.ts app.post) ──────────────────────────────

/-- The runtime shape of `body.googleDrive.credentials` as far as the
handler's checks read it: each field is an optional string value. -/
structure CredsObj where
  type : Option String := none
  client_id : Option String := none
  client_secret : Option String := none
  refresh_token : Option String := none
  project_id : Option String := none
  private_key : Option String := none
  client_email : Option String := none
deriving DecidableEq

/-- The runtime shape of `body.googleDrive`; `credentials = none` models
a missing or non-object credentials value. -/
structure GoogleDriveBody where
  credentials : Option CredsObj := none
  folderId : Option String := none
deriving DecidableEq

/-- The runtime shape of the POST body as far as the handler reads it. -/
structure RequestBody where
  url : Option String := none
  quality : Option String := none
  format : Option String := none
  webhookUrl : Option String := none
  googleDrive : Option GoogleDriveBody := none
deriving DecidableEq

/-- The handler's synchronous response: an HTTP rejection with its status
code and message, or the 202 acknowledgment carrying the fresh job id. -/
inductive AdmissionResponse where
  | reject (code : Nat) (msg : String)
  | accepted (jobId : String)
deriving DecidableEq

/-- `server.ts` `validQualities`. -/
def validQualities : List String :=
  ["highest", "best", "1080p", "720p", "mid", "480p", "360p", "lowest"]

/-- The job record created at admission (server.ts, the `job` literal in
the POST handler): fresh id, `queued`, creation timestamp, nothing else. -/
def initialJob (id ts : String) : JobResult :=
  { jobId := id, status := .queued, createdAt := ts }

/-- `server.ts` `app.post` handler, up to sending the synchronous
response.  Oracles: `urlValid` is whether `new URL(...)` succeeds,
`live` the result of `validateGoogleDrive`, `newId` the value of
`crypto.randomUUID()`, `nowTs` the clock read.  Returns the response and
the job store after the handler ran. -/
def handleDownload (urlValid : String → Bool) (live : Except String Unit)
    (newId nowTs : String) (jobs : Store) (body : RequestBody) :
    AdmissionResponse × Store :=
  if !(truthy body.url) then
    (.reject 400 "\"url\" is required and must be a string", jobs)
  else if truthy body.quality && !(validQualities.contains (body.quality.getD "")) then
    (.reject 400 ("\"quality\" must be one of: " ++ String.intercalate ", " validQualities), jobs)
  else if truthy body.format && !(body.format.getD "" == "mp4") then
    (.reject 400 "\"format\" must be \"mp4\"", jobs)
  else if truthy body.webhookUrl && !(urlValid (body.webhookUrl.getD "")) then
    (.reject 400 "\"webhookUrl\" must be a valid URL", jobs)
  else
    match body.googleDrive with
    | some gd =>
        match gd.credentials with
        | none =>
            (.reject 400 "\"googleDrive.credentials\" must be a credentials object", jobs)
        | some creds =>
            if !(creds.type == some "service_account") && !(creds.type == some "oauth2") then
              (.reject 400 "\"googleDrive.credentials.type\" must be \"service_account\" or \"oauth2\"", jobs)
            else if creds.type == some "oauth2" &&
                (!(truthy creds.client_id) || !(truthy creds.client_secret) || !(truthy creds.refresh_token)) then
              (.reject 400 "OAuth2 credentials require \"client_id\", \"client_secret\", and \"refresh_token\"", jobs)
            else if !(truthy gd.folderId) then
              (.reject 400 "\"googleDrive.folderId\" is required when googleDrive is provided", jobs)
            else
              match live with
              | .error m => (.reject 422 m, jobs)
              | .ok _ => (.accepted newId, mapSet jobs newId (initialJob newId nowTs))
    | none => (.accepted newId, mapSet jobs newId (initialJob newId nowTs))

/-- `server.ts` `app.get` status handler: 404 when the id is unknown,
otherwise the stored record. -/
def handleStatus (jobs : Store) (jobId : String) : Except (Nat × String) JobResult :=
  match mapGet jobs jobId with
  | none => .error (404, "Job not found")
  | some j => .ok j

-- ── Derived check predicates (for theorem hypotheses) ───────────────────

/-- The quality check of the handler passes (absent/falsy, or a member of
`validQualities`). -/
def qualityOk (body : RequestBody) : Bool :=
  !(truthy body.quality) || validQualities.contains (body.quality.getD "")

/-- The format check of the handler passes. -/
def formatOk (body : RequestBody) : Bool :=
  !(truthy body.format) || body.format.getD "" == "mp4"

/-- The webhook-URL check of the handler passes. -/
def webhookOk (urlValid : String → Bool) (body : RequestBody) : Bool :=
  !(truthy body.webhookUrl) || urlValid (body.webhookUrl.getD "")

/-- The credentials object passes the handler's structural checks. -/
def credsOk (c : CredsObj) : Bool :=
  (c.type == some "service_account" || c.type == some "oauth2")
  && (!(c.type == some "oauth2")
      || (truthy c.client_id && truthy c.client_secret && truthy c.refresh_token))

/-- The whole `googleDrive` payload passes the handler's structural
checks (credentials object present and well-formed, folder id present). -/
def gdStructOk (gd : GoogleDriveBody) : Bool :=
  match gd.credentials with
  | none => false
  | some c => credsOk c && truthy gd.folderId

-- ── Demo values for witnesses and counterexamples ───────────────────────

/-- A terminal record already stored under identifier `"k"`. -/
def jobA : JobResult :=
  { jobId := "k", status := .success, createdAt := "t0",
    completedAt := some "t1", localPath := some "/out/a.mp4" }

/-- A minimal valid request body with no storage destination. -/
def demoBody : RequestBody := { url := some "https://youtu.be/x" }

/-- A request whose service-account credentials carry none of the
identity fields (`project_id`, `private_key`, `client_email`). -/
def saNoFieldsBody : RequestBody :=
  { url := some "https://youtu.be/x",
    googleDrive := some { credentials := some { type := some "service_account" },
                          folderId := some "folder1" } }

-- ── Helper lemmas ───────────────────────────────────────────────────────

theorem sendWebhookCallback_jobAfter (u : String) (j : JobResult) (o : WebhookOutcome) :
    (sendWebhookCallback u j o).jobAfter = j := by
  cases o <;> rfl

theorem truthy_some (s : String) : truthy (some s) = !(s == "") := rfl

theorem truthy_none : truthy none = false := rfl

theorem mapGet_mapSet_self (s : Store) (k : String) (v : JobResult) :
    mapGet (mapSet s k v) k = some v := by
  induction s with
  | nil => simp [mapSet, mapGet]
  | cons p rest ih =>
      by_cases h : p.1 = k
      · simp [mapSet, mapGet, h]
      · simp [mapSet, mapGet, h, ih]

theorem streamFormat_mem (q : String) :
    streamToGDriveFormat q = "best[height<=720][ext=mp4]/best[height<=720]"
    ∨ streamToGDriveFormat q = "best[height<=480][ext=mp4]/best[height<=480]"
    ∨ streamToGDriveFormat q = "best[height<=360][ext=mp4]/best[height<=360]"
    ∨ streamToGDriveFormat q = "worst[ext=mp4]/worst" := by
  unfold streamToGDriveFormat buildYtdlpFormat
  split_ifs <;> simp_all

theorem mapGet_mapSet_ne (s : Store) (k k' : String) (v : JobResult) (h : k' ≠ k) :
    mapGet (mapSet s k v) k' = mapGet s k' := by
  induction s with
  | nil => simp [mapSet, mapGet, Ne.symm h]
  | cons p rest ih =>
      by_cases hp : p.1 = k
      · simp [mapSet, mapGet, hp, h, Ne.symm h]
      · by_cases hp' : p.1 = k'
        · simp [mapSet, mapGet, hp, hp', h]
        · simp [mapSet, mapGet, hp, hp', ih]

-- ── Claims ──────────────────────────────────────────────────────────────

/-- Claim C10: on the streaming path (a storage destination supplied),
the quality selectors highest, best, 1080p, 720p and mid all map to one
identical selector string capped at height 720 — a 1080p streaming
request never yields a selector permitting height above 720 — and only
480p, 360p and lowest produce selectors distinct from it and from each
other. -/
theorem streaming_quality_collapse :
    streamToGDriveFormat "highest" = "best[height<=720][ext=mp4]/best[height<=720]"
    ∧ streamToGDriveFormat "best" = streamToGDriveFormat "highest"
    ∧ streamToGDriveFormat "1080p" = streamToGDriveFormat "highest"
    ∧ streamToGDriveFormat "720p" = streamToGDriveFormat "highest"
    ∧ streamToGDriveFormat "mid" = streamToGDriveFormat "highest"
    ∧ streamToGDriveFormat "480p" ≠ streamToGDriveFormat "highest"
    ∧ streamToGDriveFormat "360p" ≠ streamToGDriveFormat "highest"
    ∧ streamToGDriveFormat "lowest" ≠ streamToGDriveFormat "highest"
    ∧ streamToGDriveFormat "480p" ≠ streamToGDriveFormat "360p"
    ∧ streamToGDriveFormat "480p" ≠ streamToGDriveFormat "lowest"
    ∧ streamToGDriveFormat "360p" ≠ streamToGDriveFormat "lowest" := by
  decide

/-- Claim C9, counterexample: the streaming selector for quality "best"
has final fallback alternative "best[height<=720]", which is
height-constrained — not the unconstrained "best" the claim requires. -/
theorem streaming_final_fallback_cex :
    streamToGDriveFormat "best" = "best[height<=720][ext=mp4]/best[height<=720]"
    ∧ lastAlt (streamToGDriveFormat "best") = "best[height<=720]"
    ∧ lastAlt (streamToGDriveFormat "best") ≠ "best" := by
  decide

/-- Claim C9 (amended): for every quality level the streaming selector is
merge-free (no `+`, so no post-hoc remuxing) and is one of four fixed
selectors whose alternatives degrade by dropping the container constraint
while keeping the height bound; its final fallback alternative is never
the unconstrained "best" — the unconstrained final fallback exists only
on the local (non-streaming) path. -/
theorem streaming_selector_policy (q : String) :
    hasMerge (streamToGDriveFormat q) = false
    ∧ (streamToGDriveFormat q = "best[height<=720][ext=mp4]/best[height<=720]"
       ∨ streamToGDriveFormat q = "best[height<=480][ext=mp4]/best[height<=480]"
       ∨ streamToGDriveFormat q = "best[height<=360][ext=mp4]/best[height<=360]"
       ∨ streamToGDriveFormat q = "worst[ext=mp4]/worst")
    ∧ lastAlt (streamToGDriveFormat q) ≠ "best"
    ∧ lastAlt (buildYtdlpFormat "best" false) = "best" := by
  rcases streamFormat_mem q with h | h | h | h <;> (rw [h]; decide)

/-- Claim C7, counterexample: when `crypto.randomUUID()` returns an
identifier already bound in the store, admission succeeds and
`jobs.set` silently replaces the existing record — the create operation
does not fail on collision. -/
theorem create_overwrites_cex :
    (handleDownload (fun _ => true) (.ok ()) "k" "t2" [("k", jobA)] demoBody).1
      = .accepted "k"
    ∧ mapGet (handleDownload (fun _ => true) (.ok ()) "k" "t2" [("k", jobA)] demoBody).2 "k"
        = some (initialJob "k" "t2")
    ∧ initialJob "k" "t2" ≠ jobA := by
  decide

/-- Claim C7 (amended): the create operation does not fail when the
identifier already exists — `Map.set` silently replaces that binding
(uniqueness rests on the cryptographically random identifier, not on a
store-level check); the stored record under the written key is always
the new one, and every other key's binding is unchanged. -/
theorem mapSet_create_semantics (s : Store) (k k' : String) (v : JobResult)
    (h : k' ≠ k) :
    mapGet (mapSet s k v) k = some v
    ∧ mapGet (mapSet s k v) k' = mapGet s k' :=
  ⟨mapGet_mapSet_self s k v, mapGet_mapSet_ne s k k' v h⟩

/-- Witness for the amended C7 theorem at a concrete store and keys. -/
theorem mapSet_create_semantics_witness :
    mapGet (mapSet [("k", jobA)] "k" (initialJob "k" "t2")) "k"
      = some (initialJob "k" "t2")
    ∧ mapGet (mapSet [("k", jobA)] "k" (initialJob "k" "t2")) "other"
      = mapGet [("k", jobA)] "other" :=
  mapSet_create_semantics [("k", jobA)] "k" "other" (initialJob "k" "t2") (by decide)

/-- Claim C8, counterexample: a request whose service-account credentials
carry none of the identity fields (project id, private key, service
email) passes structural validation and is admitted — the handler never
rejects it with a 400. -/
theorem service_fields_unchecked_cex :
    (handleDownload (fun _ => true) (.ok ()) "id1" "t1" [] saNoFieldsBody).1
      = .accepted "id1"
    ∧ (handleDownload (fun _ => true) (.error "no access") "id1" "t1" [] saNoFieldsBody).1
      = .reject 422 "no access" := by
  decide

/-- Claim C8 (amended): for the service-identity discriminant, structural
validation checks only the discriminant value — the identity fields
(project id, private key, service email) are never required, and such a
request proceeds to the live check (422 on its failure) whatever those
fields hold; only the delegated-grant variant's client id, client secret
and refresh token are structurally required, missing any of them rejects
with a 400. -/
theorem credentials_structural_checks (urlValid : String → Bool) (m u fid : String)
    (pid pk em : Option String) (hu : u ≠ "") (hfid : fid ≠ "") :
    (handleDownload urlValid (.error m) "n1" "t1" []
        { url := some u,
          googleDrive := some
            { credentials := some
                { type := some "service_account",
                  project_id := pid, private_key := pk, client_email := em },
              folderId := some fid } }).1 = .reject 422 m
    ∧ (∀ cid cs rt : Option String,
        truthy cid = false ∨ truthy cs = false ∨ truthy rt = false →
        (handleDownload urlValid (.ok ()) "n1" "t1" []
            { url := some u,
              googleDrive := some
                { credentials := some
                    { type := some "oauth2",
                      client_id := cid, client_secret := cs, refresh_token := rt },
                  folderId := some fid } }).1
          = .reject 400 "OAuth2 credentials require \"client_id\", \"client_secret\", and \"refresh_token\"") := by
  have hu' : (u == "") = false := by simpa using hu
  have hf' : (fid == "") = false := by simpa using hfid
  constructor
  · simp [handleDownload, truthy_some, truthy_none, hu', hf']
  · intro cid cs rt hmiss
    rcases hmiss with hm | hm | hm <;>
      simp [handleDownload, truthy_some, truthy_none, hu', hf', hm]

/-- Claim C6: the Notifier makes exactly one delivery attempt, and for
every outcome of that attempt (success, non-2xx response or network
error) the job record is returned unchanged and no error escapes to the
caller; consequently the processor's final record equals the record at
the terminal transition, whatever the webhook outcome. -/
theorem webhook_single_attempt_frame (u : String) (job : JobResult) (outcome : WebhookOutcome)
    (job0 : JobResult) (hasGDrive : Bool) (fetch : Except String VideoInfo)
    (gdr : Except String (String × String)) (lr : Except String String)
    (doneTs : String) (wu : Option String) (wout : WebhookOutcome) :
    (sendWebhookCallback u job outcome).attempts = 1
    ∧ (sendWebhookCallback u job outcome).jobAfter = job
    ∧ (sendWebhookCallback u job outcome).thrown = none
    ∧ (processJob job0 hasGDrive fetch gdr lr doneTs wu wout).final
        = (processJob job0 hasGDrive fetch gdr lr doneTs wu wout).terminalRec := by
  refine ⟨?_, ?_, ?_, ?_⟩
  · cases outcome <;> rfl
  · cases outcome <;> rfl
  · cases outcome <;> rfl
  · cases hw : truthy wu <;>
      cases fetch <;> cases hasGDrive <;> cases gdr <;> cases lr <;>
        simp [processJob, sendWebhookCallback_jobAfter, hw]

/-- Claim C1: for every admitted job, a metadata-fetch error leads to the
failed state with that error's message and without invoking any transfer;
a transfer error (streaming or local) likewise leads to failed with its
message; the final status is always success or failed, never in_progress;
and the notification step is reached (the webhook fires exactly when a
webhook URL was supplied). -/
theorem processJob_error_handling (job0 : JobResult) (hasGDrive : Bool)
    (fetch : Except String VideoInfo) (gdr : Except String (String × String))
    (lr : Except String String) (doneTs : String)
    (wu : Option String) (wout : WebhookOutcome) :
    ((processJob job0 hasGDrive fetch gdr lr doneTs wu wout).final.status = .success
      ∨ (processJob job0 hasGDrive fetch gdr lr doneTs wu wout).final.status = .failed)
    ∧ (∀ m, fetch = .error m →
        (processJob job0 hasGDrive fetch gdr lr doneTs wu wout).transferInvoked = false
        ∧ (processJob job0 hasGDrive fetch gdr lr doneTs wu wout).final.status = .failed
        ∧ (processJob job0 hasGDrive fetch gdr lr doneTs wu wout).final.error = some m)
    ∧ (∀ i m, fetch = .ok i → hasGDrive = true → gdr = .error m →
        (processJob job0 hasGDrive fetch gdr lr doneTs wu wout).final.status = .failed
        ∧ (processJob job0 hasGDrive fetch gdr lr doneTs wu wout).final.error = some m)
    ∧ (∀ i m, fetch = .ok i → hasGDrive = false → lr = .error m →
        (processJob job0 hasGDrive fetch gdr lr doneTs wu wout).final.status = .failed
        ∧ (processJob job0 hasGDrive fetch gdr lr doneTs wu wout).final.error = some m)
    ∧ (processJob job0 hasGDrive fetch gdr lr doneTs wu wout).webhookInvoked = truthy wu := by
  cases hw : truthy wu <;>
    cases fetch <;> cases hasGDrive <;> cases gdr <;> cases lr <;>
      simp [processJob, sendWebhookCallback_jobAfter, hw]

/-- Witness for C1: a run with a failing metadata fetch ends failed. -/
theorem processJob_error_handling_witness :
    (processJob (initialJob "j1" "t0") false (.error "boom") (.ok ("u", "f")) (.ok "/p")
      "t1" (some "http://cb") .ok2xx).final.status = .failed :=
  ((processJob_error_handling (initialJob "j1" "t0") false (.error "boom") (.ok ("u", "f"))
      (.ok "/p") "t1" (some "http://cb") .ok2xx).2.1 "boom" rfl).2.1

/-- Claim C2: along every observable state of a job's record — the
admitted record and every snapshot of the processor's run — `completedAt`
is present exactly when the status is terminal, and every terminal
snapshot is the one record written at the terminal transition, carrying
the single completion timestamp. -/
theorem completedAt_iff_terminal (id ts : String) (hasGDrive : Bool)
    (fetch : Except String VideoInfo) (gdr : Except String (String × String))
    (lr : Except String String) (doneTs : String)
    (wu : Option String) (wout : WebhookOutcome) :
    ∀ j ∈ initialJob id ts ::
        (processJob (initialJob id ts) hasGDrive fetch gdr lr doneTs wu wout).trace,
      j.completedAt.isSome = isTerminal j.status
      ∧ (isTerminal j.status = true →
          j = (processJob (initialJob id ts) hasGDrive fetch gdr lr doneTs wu wout).terminalRec
          ∧ j.completedAt = some doneTs) := by
  cases hw : truthy wu <;>
    cases fetch <;> cases hasGDrive <;> cases gdr <;> cases lr <;>
      cases wout <;>
        simp [processJob, sendWebhookCallback, hw, initialJob, isTerminal]

/-- Witness for C2: the terminal record of a concrete successful local
run has `completedAt` present, matching its terminal status. -/
theorem completedAt_iff_terminal_witness :
    (processJob (initialJob "j1" "t0") false (.ok ⟨"T", "mp4", "vid"⟩) (.ok ("u", "f"))
        (.ok "/out/v.mp4") "t1" none .ok2xx).terminalRec.completedAt.isSome
      = isTerminal
          (processJob (initialJob "j1" "t0") false (.ok ⟨"T", "mp4", "vid"⟩) (.ok ("u", "f"))
            (.ok "/out/v.mp4") "t1" none .ok2xx).terminalRec.status :=
  (completedAt_iff_terminal "j1" "t0" false (.ok ⟨"T", "mp4", "vid"⟩) (.ok ("u", "f"))
    (.ok "/out/v.mp4") "t1" none .ok2xx _ (by decide)).1

/-- Claim C3: in every observable state, a successful record carries
exactly the result-location fields of its branch (remote URL and file id
when a storage destination was supplied, the local path otherwise), and
any record not in status success carries none of them. -/
theorem result_location_exclusive (id ts : String) (hasGDrive : Bool)
    (fetch : Except String VideoInfo) (gdr : Except String (String × String))
    (lr : Except String String) (doneTs : String)
    (wu : Option String) (wout : WebhookOutcome) :
    ∀ j ∈ initialJob id ts ::
        (processJob (initialJob id ts) hasGDrive fetch gdr lr doneTs wu wout).trace,
      (j.status = .success →
        (hasGDrive = true →
          j.driveUrl.isSome = true ∧ j.driveFileId.isSome = true ∧ j.localPath = none)
        ∧ (hasGDrive = false →
          j.localPath.isSome = true ∧ j.driveUrl = none ∧ j.driveFileId = none))
      ∧ (j.status ≠ .success →
          j.localPath = none ∧ j.driveUrl = none ∧ j.driveFileId = none) := by
  cases hw : truthy wu <;>
    cases fetch <;> cases hasGDrive <;> cases gdr <;> cases lr <;>
      cases wout <;>
        simp [processJob, sendWebhookCallback, hw, initialJob]

/-- Witness for C3: the freshly admitted (queued) record carries no
result-location field. -/
theorem result_location_exclusive_witness :
    (initialJob "j1" "t0").localPath = none
    ∧ (initialJob "j1" "t0").driveUrl = none
    ∧ (initialJob "j1" "t0").driveFileId = none :=
  (result_location_exclusive "j1" "t0" false (.ok ⟨"T", "mp4", "vid"⟩) (.ok ("u", "f"))
    (.ok "/p") "t1" none .ok2xx (initialJob "j1" "t0") (by decide)).2 (by decide)

/-- Claim C4: along the observable states the status rank only moves
forward (queued, then in_progress, then terminal), every terminal
snapshot equals the single record written at the terminal transition (no
field is mutated after it), the run always ends terminal, and polling the
status endpoint after completion returns exactly that final record. -/
theorem status_monotone_no_mutation (id ts : String) (hasGDrive : Bool)
    (fetch : Except String VideoInfo) (gdr : Except String (String × String))
    (lr : Except String String) (doneTs : String)
    (wu : Option String) (wout : WebhookOutcome) :
    List.Chain' (fun a b => statusRank a.status ≤ statusRank b.status)
      (initialJob id ts ::
        (processJob (initialJob id ts) hasGDrive fetch gdr lr doneTs wu wout).trace)
    ∧ (∀ j ∈ initialJob id ts ::
          (processJob (initialJob id ts) hasGDrive fetch gdr lr doneTs wu wout).trace,
        isTerminal j.status = true →
        j = (processJob (initialJob id ts) hasGDrive fetch gdr lr doneTs wu wout).terminalRec)
    ∧ isTerminal
        (processJob (initialJob id ts) hasGDrive fetch gdr lr doneTs wu wout).final.status
        = true
    ∧ ∀ s : Store,
        handleStatus
          (mapSet s id
            (processJob (initialJob id ts) hasGDrive fetch gdr lr doneTs wu wout).final)
          id
        = .ok (processJob (initialJob id ts) hasGDrive fetch gdr lr doneTs wu wout).final := by
  refine ⟨?_, ?_, ?_, ?_⟩
  · cases hw : truthy wu <;>
      cases fetch <;> cases hasGDrive <;> cases gdr <;> cases lr <;>
        cases wout <;>
          simp [processJob, sendWebhookCallback, hw, initialJob, statusRank]
  · cases hw : truthy wu <;>
      cases fetch <;> cases hasGDrive <;> cases gdr <;> cases lr <;>
        cases wout <;>
          simp [processJob, sendWebhookCallback, hw, initialJob, isTerminal]
  · cases hw : truthy wu <;>
      cases fetch <;> cases hasGDrive <;> cases gdr <;> cases lr <;>
        cases wout <;>
          simp [processJob, sendWebhookCallback, hw, isTerminal]
  · intro s
    simp [handleStatus, mapGet_mapSet_self]

/-- Witness for C4: polling after a concrete completed run returns the
final record. -/
theorem status_monotone_no_mutation_witness :
    handleStatus
      (mapSet []
        "j1"
        (processJob (initialJob "j1" "t0") false (.ok ⟨"T", "mp4", "vid"⟩) (.ok ("u", "f"))
          (.ok "/out/v.mp4") "t1" none .ok2xx).final)
      "j1"
    = .ok (processJob (initialJob "j1" "t0") false (.ok ⟨"T", "mp4", "vid"⟩) (.ok ("u", "f"))
        (.ok "/out/v.mp4") "t1" none .ok2xx).final :=
  (status_monotone_no_mutation "j1" "t0" false (.ok ⟨"T", "mp4", "vid"⟩) (.ok ("u", "f"))
    (.ok "/out/v.mp4") "t1" none .ok2xx).2.2.2 []

set_option maxHeartbeats 2000000 in
/-- Claim C5: every rejected admission leaves the job store unchanged
and carries status 400 or 422; each structural violation (missing or
falsy url, quality outside the enumerated set, format other than mp4,
malformed webhook URL, ill-formed credentials or missing folder id)
rejects with 400, while a request passing every structural check whose
live destination check fails rejects with 422 carrying the check's
message. -/
theorem admission_rejections (urlValid : String → Bool) (live : Except String Unit)
    (newId nowTs : String) (jobs : Store) (body : RequestBody) :
    (∀ c m s', handleDownload urlValid live newId nowTs jobs body = (.reject c m, s') →
        s' = jobs ∧ (c = 400 ∨ (c = 422 ∧ live = .error m)))
    ∧ (truthy body.url = false →
        handleDownload urlValid live newId nowTs jobs body
          = (.reject 400 "\"url\" is required and must be a string", jobs))
    ∧ (truthy body.url = true → qualityOk body = false →
        handleDownload urlValid live newId nowTs jobs body
          = (.reject 400 ("\"quality\" must be one of: "
              ++ String.intercalate ", " validQualities), jobs))
    ∧ (truthy body.url = true → qualityOk body = true → formatOk body = false →
        handleDownload urlValid live newId nowTs jobs body
          = (.reject 400 "\"format\" must be \"mp4\"", jobs))
    ∧ (truthy body.url = true → qualityOk body = true → formatOk body = true →
        webhookOk urlValid body = false →
        handleDownload urlValid live newId nowTs jobs body
          = (.reject 400 "\"webhookUrl\" must be a valid URL", jobs))
    ∧ (∀ gd, truthy body.url = true → qualityOk body = true → formatOk body = true →
        webhookOk urlValid body = true → body.googleDrive = some gd → gdStructOk gd = false →
        ∃ msg, handleDownload urlValid live newId nowTs jobs body = (.reject 400 msg, jobs))
    ∧ (∀ gd m, truthy body.url = true → qualityOk body = true → formatOk body = true →
        webhookOk urlValid body = true → body.googleDrive = some gd → gdStructOk gd = true →
        live = .error m →
        handleDownload urlValid live newId nowTs jobs body = (.reject 422 m, jobs)) := by
  refine ⟨?_, ?_, ?_, ?_, ?_, ?_, ?_⟩
  · intro c m s' h
    unfold handleDownload at h
    split_ifs at h <;> (try (repeat' split at h)) <;> simp_all
  · intro h
    simp [handleDownload, h]
  · intro h1 h2
    simp_all [handleDownload, qualityOk]
  · intro h1 h2 h3
    by_cases hq : truthy body.quality <;>
      simp_all [handleDownload, qualityOk, formatOk]
  · intro h1 h2 h3 h4
    by_cases hq : truthy body.quality <;> by_cases hf : truthy body.format <;>
      simp_all [handleDownload, qualityOk, formatOk, webhookOk]
  · intro gd h1 h2 h3 h4 hbg hgd
    rcases hcred : gd.credentials with _ | c
    · by_cases hq : truthy body.quality <;> by_cases hf : truthy body.format <;>
        by_cases hw : truthy body.webhookUrl <;>
          exact ⟨"\"googleDrive.credentials\" must be a credentials object",
            by simp_all [handleDownload, qualityOk, formatOk, webhookOk]⟩
    · by_cases hq : truthy body.quality <;> by_cases hf : truthy body.format <;>
        by_cases hw : truthy body.webhookUrl <;>
          by_cases hsa : c.type = some "service_account" <;>
            by_cases ho2 : c.type = some "oauth2" <;>
              by_cases hcid : truthy c.client_id <;>
                by_cases hcs : truthy c.client_secret <;>
                  by_cases hrt : truthy c.refresh_token <;>
                    by_cases hfo : truthy gd.folderId <;>
                      simp_all [handleDownload, qualityOk, formatOk, webhookOk,
                        gdStructOk, credsOk]
  · intro gd m h1 h2 h3 h4 hbg hgd hlive
    by_cases hq : truthy body.quality <;> by_cases hf : truthy body.format <;>
      by_cases hw : truthy body.webhookUrl <;>
        rcases hcred : gd.credentials with _ | c <;>
          simp_all [handleDownload, qualityOk, formatOk, webhookOk, gdStructOk, credsOk] <;>
            (split_ifs with hA hB
             · exact absurd hgd.1.1 (by tauto)
             · exfalso
               rcases hgd with ⟨⟨_, hor⟩, _⟩
               rcases hB with ⟨ho2, hmiss⟩
               rcases hor with ho | ⟨⟨hcid, hcs⟩, hrt⟩
               · exact ho ho2
               · rcases hmiss with (h | h) | h <;> simp_all
             · rfl)

/-- Witness for C5: a request with no url is rejected 400 and the store
is left empty. -/
theorem admission_rejections_witness :
    handleDownload (fun _ => true) (.ok ()) "n" "t" [] {}
      = (.reject 400 "\"url\" is required and must be a string", []) :=
  (admission_rejections (fun _ => true) (.ok ()) "n" "t" [] {}).2.1 rfl

/-- Witness for the amended C8 theorem at concrete field values. -/
theorem credentials_structural_checks_witness :
    (handleDownload (fun _ => true) (.error "bad folder") "n1" "t1" []
        { url := some "https://youtu.be/x",
          googleDrive := some
            { credentials := some
                { type := some "service_account",
                  project_id := none, private_key := none, client_email := none },
              folderId := some "folder1" } }).1 = .reject 422 "bad folder" :=
  (credentials_structural_checks (fun _ => true) "bad folder" "https://youtu.be/x" "folder1"
    none none none (by decide) (by decide)).1

end YtD
